import Mathlib

/-!
Verification of the crop-geometry and image-transform pipeline of the
`view.py` image viewer.

The Python source is shallowly embedded: Python floats that only ever hold
ratios of integer pixel quantities are modelled as rationals (`ℚ`), Python
`int(...)` truncation as `pyInt`, Python `//` as `Int.fdiv`, and Python `%`
as `Int.emod`.  Qt primitives used by the program (`QRect`, `QPixmap`) are
modelled after their Qt 6 behaviour; in particular 90-degree rotation steps
are exact pixel transposes, and `QPixmap.copy` copies the intersection of a
non-empty rectangle with the pixmap bounds (copying the whole pixmap when
the requested rectangle is empty or disjoint from the bounds).  The smooth
scaling algorithm applied to the displayed pixmap is kept abstract as a
parameter `alg`, since no property below depends on resampled pixel
values.  File-system access, image decoding and directory enumeration are
oracles collected in a `FileSystem` record.
-/

/-- Truncation toward zero of a rational number, modelling Python `int(...)`
applied to a float. -/
def pyInt (q : ℚ) : Int := q.num.tdiv q.den

/-- A rectangle given by position and size, modelling `QRect`. -/
structure Rect where
  x : Int
  y : Int
  w : Int
  h : Int
deriving DecidableEq

/-- `QRect.isNull`: both width and height are zero. -/
def Rect.IsNullQ (r : Rect) : Prop := r.w = 0 ∧ r.h = 0

instance (r : Rect) : Decidable r.IsNullQ := by unfold Rect.IsNullQ; infer_instance

/-- `QRect.isEmpty`: width or height is not positive. -/
def Rect.IsEmptyQ (r : Rect) : Prop := r.w ≤ 0 ∨ r.h ≤ 0

instance (r : Rect) : Decidable r.IsEmptyQ := by unfold Rect.IsEmptyQ; infer_instance

/-- `QRect.translated`: move a rectangle by an offset. -/
def Rect.translated (r : Rect) (dx dy : Int) : Rect :=
  ⟨r.x + dx, r.y + dy, r.w, r.h⟩

/-- `QRect.intersected` for rectangles with nonnegative sizes (the only kind
this program produces): the largest rectangle contained in both, the null
rectangle when either operand is null or the two do not meet. -/
def Rect.intersected (r1 r2 : Rect) : Rect :=
  if r1.IsNullQ ∨ r2.IsNullQ then ⟨0, 0, 0, 0⟩
  else if max r1.x r2.x > min (r1.x + r1.w - 1) (r2.x + r2.w - 1)
      ∨ max r1.y r2.y > min (r1.y + r1.h - 1) (r2.y + r2.h - 1) then ⟨0, 0, 0, 0⟩
  else ⟨max r1.x r2.x, max r1.y r2.y,
    min (r1.x + r1.w - 1) (r2.x + r2.w - 1) - max r1.x r2.x + 1,
    min (r1.y + r1.h - 1) (r2.y + r2.h - 1) - max r1.y r2.y + 1⟩

/-- An in-memory pixel buffer, modelling `QPixmap`: a width, a height and a
pixel-value function (only its values at coordinates inside the bounds are
meaningful). -/
structure Bitmap where
  w : Nat
  h : Nat
  px : Nat → Nat → Int

/-- `QPixmap.isNull`: a pixmap with a zero dimension is null; `QPixmap()`
constructs a null pixmap. -/
def Bitmap.IsNullQ (b : Bitmap) : Prop := b.w = 0 ∨ b.h = 0

instance (b : Bitmap) : Decidable b.IsNullQ := by unfold Bitmap.IsNullQ; infer_instance

/-- The null pixmap `QPixmap()`. -/
def Bitmap.nullB : Bitmap := ⟨0, 0, fun _ _ => 0⟩

/-- Rotation of a pixmap by a multiple of 90 degrees (clockwise for positive
angles, with the y axis pointing down as on screen), as performed by
`pixmap.transformed(QTransform().rotate(angle))`.  At right angles this Qt
transformation is an exact pixel transpose/flip.  The viewer only ever calls
it with `rotation_angle ∈ {0, 90, 180, 270}`; other angles are out of scope
and mapped to the identity. -/
def rotateBitmap (angle : Int) (b : Bitmap) : Bitmap :=
  let a := angle.emod 360
  if a = 90 then ⟨b.h, b.w, fun x y => b.px y (b.h - 1 - x)⟩
  else if a = 180 then ⟨b.w, b.h, fun x y => b.px (b.w - 1 - x) (b.h - 1 - y)⟩
  else if a = 270 then ⟨b.h, b.w, fun x y => b.px (b.w - 1 - y) x⟩
  else b

/-- The sub-bitmap of `b` described by a rectangle lying inside the bounds
of `b` (used only after intersection with the bounds). -/
def subBitmap (b : Bitmap) (r : Rect) : Bitmap :=
  ⟨r.w.toNat, r.h.toNat, fun x y => b.px (x + r.x.toNat) (y + r.y.toNat)⟩

/-- `QPixmap.copy(rect)` (Qt 6, raster backend): null pixmaps copy to null;
an empty requested rectangle selects the whole pixmap; otherwise the
request is intersected with the pixmap bounds, a disjoint request thereby
degenerating to the null rectangle, which again selects the whole pixmap.
The result is never null for a non-null source. -/
def qpixmapCopy (b : Bitmap) (r : Rect) : Bitmap :=
  if b.IsNullQ then Bitmap.nullB
  else
    let full : Rect := ⟨0, 0, (b.w : Int), (b.h : Int)⟩
    let rr : Rect := if ¬r.IsEmptyQ then r.intersected full else full
    if rr.IsNullQ then ⟨b.w, b.h, b.px⟩ else subBitmap b rr

/-- The effective display scale computed by `update_image_display`
(view.py lines 1391-1402): starting from `scale_factor`, a per-dimension
correction `1 / dimension` is applied when the target of that dimension
falls below 1 pixel, the height correction being combined with `max`. -/
def effectiveScale (rotW rotH : Nat) (sf : ℚ) : ℚ :=
  let es1 : ℚ := if (rotW : ℚ) * sf < 1 ∧ 0 < rotW then 1 / (rotW : ℚ) else sf
  if (rotH : ℚ) * sf < 1 ∧ 0 < rotH then max es1 (1 / (rotH : ℚ)) else es1

/-- The target dimensions handed to the scaler by `update_image_display`
(view.py lines 1404-1406): `max(1, int(dimension * effective_scale))` for
each dimension of the rotated pixmap. -/
def displayTargetDims (rotW rotH : Nat) (sf : ℚ) : Int × Int :=
  (max 1 (pyInt ((rotW : ℚ) * effectiveScale rotW rotH sf)),
    max 1 (pyInt ((rotH : ℚ) * effectiveScale rotW rotH sf)))

/-- The toolkit's smooth scaling of a pixmap to target dimensions
(`QPixmap.scaled` with `KeepAspectRatio` and `SmoothTransformation`),
kept abstract: an arbitrary function of the rotated pixmap and the two
target dimensions. -/
abbrev ScaleAlg := Bitmap → Int → Int → Bitmap

/-- The display-to-source mapping performed inline by
`apply_crop_from_selection` (view.py lines 2041-2059): the centering offset
of the displayed pixmap inside the label is removed with floor division by
2, and the translated selection is scaled by
`srcW / (dispW / scaleFactor)` with each of x, y, width, height truncated
to an integer.  `srcW` is `self.pixmap.width()`, `labelW`/`labelH` the label
widget size, `dispW`/`dispH` the size of the displayed (rotated and scaled)
pixmap on the label.  No clamping of any kind is performed. -/
def mapDisplayRectToSource (srcW : Nat) (sf : ℚ) (labelW labelH dispW dispH : Nat)
    (crop : Rect) : Rect :=
  let offX : Int := ((labelW : Int) - (dispW : Int)).fdiv 2
  let offY : Int := ((labelH : Int) - (dispH : Int)).fdiv 2
  let sel : Rect := crop.translated (-offX) (-offY)
  let scale : ℚ := (srcW : ℚ) / ((dispW : ℚ) / sf)
  ⟨pyInt ((sel.x : ℚ) * scale), pyInt ((sel.y : ℚ) * scale),
    pyInt ((sel.w : ℚ) * scale), pyInt ((sel.h : ℚ) * scale)⟩

/-- The same mapping written step by step from the specification's words
(spec section 4.1): offset by integer floor division, translation by the
negated offset, inverse scale `sourceScale = sourceW / (displayedW /
scaleFactor)`, and multiplication of the four components by `sourceScale`
with truncation to integers. -/
def mapDisplayRectToSourceSpecFormula (srcW : Nat) (sf : ℚ)
    (labelW labelH dispW dispH : Nat) (crop : Rect) : Rect :=
  let offset : Int × Int :=
    (((labelW : Int) - (dispW : Int)).fdiv 2, ((labelH : Int) - (dispH : Int)).fdiv 2)
  let translated : Rect := crop.translated (-offset.1) (-offset.2)
  let sourceScale : ℚ := (srcW : ℚ) / ((dispW : ℚ) / sf)
  ⟨pyInt ((translated.x : ℚ) * sourceScale), pyInt ((translated.y : ℚ) * sourceScale),
    pyInt ((translated.w : ℚ) * sourceScale), pyInt ((translated.h : ℚ) * sourceScale)⟩

/-- The mutable state of the viewer window, restricted to the fields the
crop/transform pipeline reads or writes.  `label_w`/`label_h` are the size
of the image label widget, `label_pixmap` the pixmap currently set on it,
`crop_rect` the rubber-band rectangle of the crop overlay, and
`area_w`/`area_h` the size of the scroll area. -/
structure ViewerState where
  pixmap : Bitmap
  original_pixmap : Bitmap
  rotation_angle : Int
  scale_factor : ℚ
  image_modified_by_crop : Bool
  image_modified_by_bg_removal : Bool
  is_cropping : Bool
  label_w : Nat
  label_h : Nat
  label_pixmap : Bitmap
  crop_rect : Rect
  area_w : Nat
  area_h : Nat
  current_image_path : Option String
  image_files_in_directory : List String
  current_image_index : Int

/-- `update_image_display` (view.py lines 1371-1416): a null pixmap clears
the label; otherwise the pixmap is rotated, the target dimensions are
computed with the minimum-dimension-corrected scale, and the rotated pixmap
scaled by `alg` becomes the label pixmap.  No other state field changes. -/
def update_image_display (alg : ScaleAlg) (s : ViewerState) : ViewerState :=
  if s.pixmap.IsNullQ then { s with label_pixmap := Bitmap.nullB }
  else
    let rot := rotateBitmap s.rotation_angle s.pixmap
    let dims := displayTargetDims rot.w rot.h s.scale_factor
    { s with label_pixmap := alg rot dims.1 dims.2 }

/-- The pixmap footprint used by `fit_to_window` (view.py lines 1703-1705):
the pixmap size, transposed when the rotation angle is not a multiple of
180 degrees. -/
def fitDims (s : ViewerState) : Nat × Nat :=
  if s.rotation_angle.emod 180 ≠ 0 then (s.pixmap.h, s.pixmap.w)
  else (s.pixmap.w, s.pixmap.h)

/-- `fit_to_window` (view.py lines 1695-1714): no-op on a null pixmap or a
zero footprint dimension; otherwise the scale factor becomes the minimum of
the two container/footprint ratios and the display is refreshed. -/
def fit_to_window (alg : ScaleAlg) (s : ViewerState) : ViewerState :=
  if s.pixmap.IsNullQ then s
  else
    let pd := fitDims s
    if pd.1 = 0 ∨ pd.2 = 0 then s
    else
      let wr : ℚ := (s.area_w : ℚ) / (pd.1 : ℚ)
      let hr : ℚ := (s.area_h : ℚ) / (pd.2 : ℚ)
      update_image_display alg { s with scale_factor := min wr hr }

/-- `rotate_left` (view.py lines 1721-1724): subtract 90 degrees modulo 360
and refresh the display. -/
def rotate_left (alg : ScaleAlg) (s : ViewerState) : ViewerState :=
  update_image_display alg { s with rotation_angle := (s.rotation_angle - 90).emod 360 }

/-- `rotate_right` (view.py lines 1726-1729): add 90 degrees modulo 360 and
refresh the display. -/
def rotate_right (alg : ScaleAlg) (s : ViewerState) : ViewerState :=
  update_image_display alg { s with rotation_angle := (s.rotation_angle + 90).emod 360 }

/-- The default string used where the source indexes with a value that is
always in range. -/
def noFile : String := ""

/-- Oracles for the collaborators of `load_image`: file existence, decoding
of a file to a pixmap (null when the bytes do not decode), and the
directory listing together with the index of the loaded file in it. -/
structure FileSystem where
  fileExists : String → Bool
  decode : String → Bitmap
  listDirectory : String → List String × Int

/-- The state resets performed by the successful branch of `load_image`
(view.py lines 1276-1287): install the decoded pixmap and its copy, record
the path, and reset scale, rotation and both modification flags. -/
def loadReset (s : ViewerState) (b : Bitmap) (path : String) : ViewerState :=
  { s with
    pixmap := b
    original_pixmap := b
    current_image_path := some path
    scale_factor := 1
    rotation_angle := 0
    image_modified_by_bg_removal := false
    image_modified_by_crop := false }

/-- `load_image` (view.py lines 1245-1298): a missing file or undecodable
bytes report an error and leave the state untouched; a successful decode
applies `loadReset`, refits to the window and rebuilds the directory
listing. -/
def load_image (alg : ScaleAlg) (fs : FileSystem) (s : ViewerState) (path : String) :
    ViewerState × Bool :=
  if fs.fileExists path = false then (s, false)
  else
    let newPixmap := fs.decode path
    if newPixmap.IsNullQ then (s, false)
    else
      let s2 := fit_to_window alg (loadReset s newPixmap path)
      let dir := fs.listDirectory path
      ({ s2 with image_files_in_directory := dir.1, current_image_index := dir.2 }, true)

/-- Python truthiness of the optional path string (`not
self.current_image_path` is taken both when the path is `None` and when it
is the empty string). -/
def optStrTruthy : Option String → Bool
  | none => false
  | some p => !p.isEmpty

/-- The possible outcomes of `save_image`. -/
inductive SaveOutcome where
  | noImage
  | promptSaveAs
  | wroteFile
  | writeFailed
deriving DecidableEq

/-- `save_image` (view.py lines 1565-1596): nothing to save on a null
pixmap; an absent path or the background-removal flag delegates to
`save_image_as` (a file dialog, modelled as the `promptSaveAs` outcome
without further effect); otherwise the pixmap with the current rotation
baked in (at full resolution, the display scale factor is never applied) is
written in place.  `writeOk` is the oracle for `QPixmap.save`.  On success
the rotation angle and crop flag are reset and the file is reloaded; on
failure the state is untouched.  The third component is the bitmap actually
written, when one was. -/
def save_image (alg : ScaleAlg) (fs : FileSystem) (writeOk : Bool) (s : ViewerState) :
    ViewerState × SaveOutcome × Option Bitmap :=
  if s.pixmap.IsNullQ then (s, SaveOutcome.noImage, none)
  else if optStrTruthy s.current_image_path = false ∨ s.image_modified_by_bg_removal = true then
    (s, SaveOutcome.promptSaveAs, none)
  else
    let fileToSave := s.current_image_path.getD noFile
    let pixmapToSave :=
      if s.rotation_angle ≠ 0 then rotateBitmap s.rotation_angle s.pixmap else s.pixmap
    if writeOk then
      let s1 := { s with rotation_angle := 0, image_modified_by_crop := false }
      ((load_image alg fs s1 fileToSave).1, SaveOutcome.wroteFile, some pixmapToSave)
    else (s, SaveOutcome.writeFailed, none)

/-- `_handle_bg_removal_result` (view.py lines 1899-1910): the response
bytes are decoded (`decodeData` models `QPixmap.loadFromData`, returning the
null pixmap on failure); on success the pixmap is replaced, the
background-removal flag set, the rotation reset and the display refreshed;
on failure a decode error is raised (second component `false`) and the
state is untouched. -/
def handle_bg_removal_result (alg : ScaleAlg) (decodeData : List Nat → Bitmap)
    (s : ViewerState) (imageData : List Nat) : ViewerState × Bool :=
  let newPixmap := decodeData imageData
  if ¬newPixmap.IsNullQ then
    (update_image_display alg
        { s with
          pixmap := newPixmap
          image_modified_by_bg_removal := true
          rotation_angle := 0 }, true)
  else (s, false)

/-- The retry loop of `_navigate_image` (view.py lines 1509-1519): up to
`fuel` attempts, each trying the file at the current index and stepping by
`direction` modulo the listing length on failure.  `loadable` is the oracle
for `load_image` succeeding on a path. -/
def navLoop (loadable : String → Bool) (files : List String) (direction : Int) :
    Nat → Int → Option Nat
  | 0, _ => none
  | Nat.succ fuel, idx =>
      if loadable (files.getD idx.toNat noFile) then some idx.toNat
      else navLoop loadable files direction fuel ((idx + direction).emod (files.length : Int))

/-- The navigation logic of `_navigate_image` (view.py lines 1471-1519)
after the unsaved-changes dialog: nothing to do with fewer than two files;
otherwise start at `(current_image_index + direction) % len` and try
`len` files, stepping by `direction` modulo `len` past unreadable ones.
Returns the index that loaded, if any. -/
def navigate_image (loadable : String → Bool) (files : List String)
    (cur direction : Int) : Option Nat :=
  if files.length ≤ 1 then none
  else navLoop loadable files direction files.length
    ((cur + direction).emod (files.length : Int))

/-- `apply_crop_from_selection` (view.py lines 2028-2069): refused on a null
pixmap, a null or small (width or height below 10) selection, or a null
label pixmap; otherwise the selection is mapped to source coordinates,
`QPixmap.copy` extracts that region, and a non-null result is committed:
the pixmap is replaced, the crop flag set, crop mode left and the window
refit. -/
def apply_crop_from_selection (alg : ScaleAlg) (s : ViewerState) : ViewerState :=
  if s.pixmap.IsNullQ then s
  else if s.crop_rect.IsNullQ ∨ s.crop_rect.w < 10 ∨ s.crop_rect.h < 10 then s
  else if s.label_pixmap.IsNullQ then s
  else
    let mapped := mapDisplayRectToSource s.pixmap.w s.scale_factor s.label_w s.label_h
      s.label_pixmap.w s.label_pixmap.h s.crop_rect
    let cropped := qpixmapCopy s.pixmap mapped
    if ¬cropped.IsNullQ then
      fit_to_window alg
        { s with pixmap := cropped, image_modified_by_crop := true, is_cropping := false }
    else s

/-- A concrete scaling algorithm used to instantiate witnesses: resize to
the target dimensions with all pixels cleared. -/
def alg0 : ScaleAlg := fun _ w h => ⟨w.toNat, h.toNat, fun _ _ => 0⟩

/-- A concrete all-zero bitmap of the given size. -/
def bmp (w h : Nat) : Bitmap := ⟨w, h, fun _ _ => 0⟩

/-- A concrete file path for witnesses. -/
def demoPath : String := "photo.png"

/-- A concrete viewer state: a 100x100 source shown at scale factor 2 as a
200x200 pixmap on a 200x200 label, with a 40x40 crop selection at (80,80)
whose mapped source rectangle leaves the source bounds. -/
def demoState : ViewerState where
  pixmap := bmp 100 100
  original_pixmap := bmp 100 100
  rotation_angle := 0
  scale_factor := 2
  image_modified_by_crop := false
  image_modified_by_bg_removal := false
  is_cropping := true
  label_w := 200
  label_h := 200
  label_pixmap := bmp 200 200
  crop_rect := ⟨80, 80, 40, 40⟩
  area_w := 300
  area_h := 300
  current_image_path := some demoPath
  image_files_in_directory := []
  current_image_index := 0

/-- A concrete viewer state for the fit-to-window scenario: a 100x200
source rotated by 90 degrees in a 300x300 scroll area. -/
def fitDemoState : ViewerState :=
  { demoState with
    pixmap := bmp 100 200
    original_pixmap := bmp 100 200
    rotation_angle := 90
    label_pixmap := bmp 200 100
    crop_rect := ⟨0, 0, 0, 0⟩ }

/-- A concrete viewer state for the save scenario: a 4x2 source with a
pending 90-degree rotation and an applied crop. -/
def saveDemoState : ViewerState :=
  { demoState with
    pixmap := bmp 4 2
    original_pixmap := bmp 4 2
    rotation_angle := 90
    image_modified_by_crop := true }

/-- A concrete viewer state for the rotation scenario: a 2x2 source at
rotation angle 0. -/
def rotDemoState : ViewerState :=
  { demoState with pixmap := bmp 2 2, original_pixmap := bmp 2 2 }

/-- A concrete file-system oracle: every file exists and decodes to a 4x2
pixmap; directories list three files. -/
def demoFS : FileSystem where
  fileExists := fun _ => true
  decode := fun _ => bmp 4 2
  listDirectory := fun _ => ([demoPath], 0)

/-- A concrete directory listing for navigation witnesses. -/
def demoFiles : List String := [demoPath, "b.png", "c.png"]

/-- For a nonnegative rational, truncation toward zero agrees with the floor. -/
theorem pyInt_eq_floor (q : ℚ) (h : 0 ≤ q) : pyInt q = ⌊q⌋ := by
  have hn : 0 ≤ q.num := Rat.num_nonneg.mpr h
  have hd : 0 ≤ (q.den : Int) := Int.ofNat_nonneg q.den
  rw [pyInt, Int.tdiv_eq_ediv hn hd, Rat.floor_def]

/-- `pyInt` is the identity on integers. -/
theorem pyInt_intCast (z : Int) : pyInt (z : ℚ) = z := by
  simp [pyInt, Rat.num_intCast, Rat.den_intCast]

/-- Truncation of a nonnegative rational is nonnegative. -/
theorem pyInt_nonneg (q : ℚ) (h : 0 ≤ q) : 0 ≤ pyInt q :=
  Int.tdiv_nonneg (Rat.num_nonneg.mpr h) (Int.ofNat_nonneg q.den)

/-- Truncation of a nonnegative rational does not exceed the rational. -/
theorem pyInt_le (q : ℚ) (h : 0 ≤ q) : (pyInt q : ℚ) ≤ q := by
  rw [pyInt_eq_floor q h]
  exact Int.floor_le q

/-- With a centered 200x200 displayed pixmap filling a 200x200 label and
scale factor 2 on a 100x100 source, the display-to-source mapping is the
identity: the offset is zero and the inverse scale is
100 / (200 / 2) = 1. -/
theorem map_unit_case (crop : Rect) :
    mapDisplayRectToSource 100 2 200 200 200 200 crop = crop := by
  have h0 : (((200 : Nat) : Int) - ((200 : Nat) : Int)).fdiv 2 = 0 := by decide
  have hs : ((100 : Nat) : ℚ) / (((200 : Nat) : ℚ) / 2) = 1 := by norm_num
  simp only [mapDisplayRectToSource, Rect.translated, h0, hs, neg_zero, add_zero, mul_one]
  cases crop with
  | mk x y w h => simp [pyInt_intCast]

/-- C2: the display-to-source mapping computes the centering offset as
((containerWidth - displayedWidth) floor-div 2, (containerHeight -
displayedHeight) floor-div 2), translates the selection by the negated
offset, scales by sourceScale = sourceBitmapWidth / (displayedBitmapWidth /
scaleFactor) and truncates (not rounds) each of x, y, width, height; for a
100x100 source at scale factor 2.0 in a 300x300 container, the selection
(60,60,40,40) maps to the source rectangle (10,10,40,40). -/
theorem crop_mapping_formula_and_example :
    (∀ (srcW : Nat) (sf : ℚ) (labelW labelH dispW dispH : Nat) (crop : Rect),
        mapDisplayRectToSource srcW sf labelW labelH dispW dispH crop =
          mapDisplayRectToSourceSpecFormula srcW sf labelW labelH dispW dispH crop)
    ∧ mapDisplayRectToSource 100 2 300 300 200 200 ⟨60, 60, 40, 40⟩ = ⟨10, 10, 40, 40⟩ := by
  constructor
  · intro srcW sf labelW labelH dispW dispH crop
    rfl
  · have hoffx : (((300 : Nat) : Int) - ((200 : Nat) : Int)).fdiv 2 = 50 := by decide
    simp only [mapDisplayRectToSource, Rect.translated, hoffx]
    have hscale : ((100 : Nat) : ℚ) / (((200 : Nat) : ℚ) / 2) = 1 := by norm_num
    rw [hscale]
    have h1 : (((60 : Int) + -50 : Int) : ℚ) * 1 = ((10 : Int) : ℚ) := by push_cast; norm_num
    have h2 : (((40 : Int) : Int) : ℚ) * 1 = ((40 : Int) : ℚ) := by push_cast; norm_num
    rw [h1, h2, pyInt_intCast, pyInt_intCast]

/-- C1 counterexample: with a 100x100 source displayed at scale factor 2 as
a 200x200 pixmap exactly filling a 200x200 label (centering offset 0, and
200x200 is indeed the display target the pipeline computes for this state),
the selection (150,150,40,40) lies fully within the displayed bitmap
bounds, yet the mapping sends it to (150,150,40,40), whose right edge
150 + 40 = 190 exceeds the source width 100: the mapped rectangle is not
contained in the source bounds. -/
theorem crop_mapping_bounds_counterexample :
    (((200 : Nat) : Int) - ((200 : Nat) : Int)).fdiv 2 = 0
    ∧ ((0 : Int) ≤ 150 ∧ (0 : Int) ≤ 150 ∧ (150 : Int) + 40 ≤ 200 ∧ (150 : Int) + 40 ≤ 200)
    ∧ mapDisplayRectToSource 100 2 200 200 200 200 ⟨150, 150, 40, 40⟩ = ⟨150, 150, 40, 40⟩
    ∧ ¬((150 : Int) + 40 ≤ ((100 : Nat) : Int))
    ∧ displayTargetDims 100 100 2 = (200, 200) := by
  have hes : effectiveScale 100 100 2 = 2 := by
    have hc : ¬(((100 : Nat) : ℚ) * 2 < 1 ∧ 0 < (100 : Nat)) := by
      intro hc
      have := hc.1
      norm_num at this
    simp only [effectiveScale, if_neg hc]
  have hdims : displayTargetDims 100 100 2 = (200, 200) := by
    have h200 : ((100 : Nat) : ℚ) * effectiveScale 100 100 2 = ((200 : Int) : ℚ) := by
      rw [hes]; push_cast; norm_num
    simp only [displayTargetDims, h200, pyInt_intCast]
    decide
  exact ⟨by decide, ⟨by decide, by decide, by decide, by decide⟩, map_unit_case _, by decide,
    hdims⟩

/-- C1 amended: for every selection rectangle fully within the displayed
bitmap bounds the mapped rectangle has nonnegative position and size, and
it lies fully within the source bitmap bounds provided additionally that
scaleFactor is at most 1 and displayedHeight * sourceWidth * scaleFactor is
at most sourceHeight * displayedWidth; the mapping itself performs no
clamping (it is the pure affine formula of `mapDisplayRectToSource`). -/
theorem crop_mapping_bounds_amended (srcW srcH : Nat) (sf : ℚ)
    (labelW labelH dispW dispH : Nat) (crop : Rect)
    (hsf0 : 0 < sf) (hsf1 : sf ≤ 1) (hdw : 0 < dispW)
    (haspect : (dispH : ℚ) * (srcW : ℚ) * sf ≤ (srcH : ℚ) * (dispW : ℚ))
    (hx : ((labelW : Int) - (dispW : Int)).fdiv 2 ≤ crop.x)
    (hy : ((labelH : Int) - (dispH : Int)).fdiv 2 ≤ crop.y)
    (hw : 0 ≤ crop.w) (hh : 0 ≤ crop.h)
    (hxw : crop.x + crop.w ≤ ((labelW : Int) - (dispW : Int)).fdiv 2 + (dispW : Int))
    (hyh : crop.y + crop.h ≤ ((labelH : Int) - (dispH : Int)).fdiv 2 + (dispH : Int)) :
    0 ≤ (mapDisplayRectToSource srcW sf labelW labelH dispW dispH crop).x
    ∧ 0 ≤ (mapDisplayRectToSource srcW sf labelW labelH dispW dispH crop).y
    ∧ 0 ≤ (mapDisplayRectToSource srcW sf labelW labelH dispW dispH crop).w
    ∧ 0 ≤ (mapDisplayRectToSource srcW sf labelW labelH dispW dispH crop).h
    ∧ (mapDisplayRectToSource srcW sf labelW labelH dispW dispH crop).x
        + (mapDisplayRectToSource srcW sf labelW labelH dispW dispH crop).w ≤ (srcW : Int)
    ∧ (mapDisplayRectToSource srcW sf labelW labelH dispW dispH crop).y
        + (mapDisplayRectToSource srcW sf labelW labelH dispW dispH crop).h ≤ (srcH : Int) := by
  have hdwQ : (0 : ℚ) < (dispW : ℚ) := by exact_mod_cast hdw
  have hSalt : (srcW : ℚ) / ((dispW : ℚ) / sf) = (srcW : ℚ) * sf / (dispW : ℚ) :=
    div_div_eq_mul_div _ _ _
  have hS0 : 0 ≤ (srcW : ℚ) / ((dispW : ℚ) / sf) := by
    rw [hSalt]
    positivity
  have hDW_S : (dispW : ℚ) * ((srcW : ℚ) / ((dispW : ℚ) / sf)) = (srcW : ℚ) * sf := by
    rw [hSalt]
    field_simp
  have hDH_S : (dispH : ℚ) * ((srcW : ℚ) / ((dispW : ℚ) / sf)) ≤ (srcH : ℚ) := by
    rw [hSalt, ← mul_div_assoc, div_le_iff₀ hdwQ]
    calc (dispH : ℚ) * ((srcW : ℚ) * sf) = (dispH : ℚ) * (srcW : ℚ) * sf := by ring
    _ ≤ (srcH : ℚ) * (dispW : ℚ) := haspect
  have hAx : (0 : ℚ) ≤ ((crop.x + -(((labelW : Int) - (dispW : Int)).fdiv 2) : Int) : ℚ) := by
    exact_mod_cast (by omega : (0 : Int) ≤ crop.x + -(((labelW : Int) - (dispW : Int)).fdiv 2))
  have hAy : (0 : ℚ) ≤ ((crop.y + -(((labelH : Int) - (dispH : Int)).fdiv 2) : Int) : ℚ) := by
    exact_mod_cast (by omega : (0 : Int) ≤ crop.y + -(((labelH : Int) - (dispH : Int)).fdiv 2))
  have hBw : (0 : ℚ) ≤ ((crop.w : Int) : ℚ) := by exact_mod_cast hw
  have hBh : (0 : ℚ) ≤ ((crop.h : Int) : ℚ) := by exact_mod_cast hh
  have hsumx : ((crop.x + -(((labelW : Int) - (dispW : Int)).fdiv 2) : Int) : ℚ)
      + ((crop.w : Int) : ℚ) ≤ (dispW : ℚ) := by
    have hi : crop.x + -(((labelW : Int) - (dispW : Int)).fdiv 2) + crop.w ≤ (dispW : Int) := by
      omega
    exact_mod_cast hi
  have hsumy : ((crop.y + -(((labelH : Int) - (dispH : Int)).fdiv 2) : Int) : ℚ)
      + ((crop.h : Int) : ℚ) ≤ (dispH : ℚ) := by
    have hi : crop.y + -(((labelH : Int) - (dispH : Int)).fdiv 2) + crop.h ≤ (dispH : Int) := by
      omega
    exact_mod_cast hi
  simp only [mapDisplayRectToSource, Rect.translated]
  refine ⟨pyInt_nonneg _ (mul_nonneg hAx hS0), pyInt_nonneg _ (mul_nonneg hAy hS0),
    pyInt_nonneg _ (mul_nonneg hBw hS0), pyInt_nonneg _ (mul_nonneg hBh hS0), ?_, ?_⟩
  · have h1 := pyInt_le _ (mul_nonneg hAx hS0)
    have h2 := pyInt_le _ (mul_nonneg hBw hS0)
    have h3 := mul_le_mul_of_nonneg_right hsumx hS0
    have h4 : (dispW : ℚ) * ((srcW : ℚ) / ((dispW : ℚ) / sf)) ≤ (srcW : ℚ) := by
      rw [hDW_S]
      nlinarith [Nat.cast_nonneg (α := ℚ) srcW]
    have hcast : ((pyInt (((crop.x + -(((labelW : Int) - (dispW : Int)).fdiv 2) : Int) : ℚ)
          * ((srcW : ℚ) / ((dispW : ℚ) / sf)))
        + pyInt (((crop.w : Int) : ℚ) * ((srcW : ℚ) / ((dispW : ℚ) / sf))) : Int) : ℚ)
        ≤ (srcW : ℚ) := by
      rw [Int.cast_add]
      nlinarith
    exact_mod_cast hcast
  · have h1 := pyInt_le _ (mul_nonneg hAy hS0)
    have h2 := pyInt_le _ (mul_nonneg hBh hS0)
    have h3 := mul_le_mul_of_nonneg_right hsumy hS0
    have hcast : ((pyInt (((crop.y + -(((labelH : Int) - (dispH : Int)).fdiv 2) : Int) : ℚ)
          * ((srcW : ℚ) / ((dispW : ℚ) / sf)))
        + pyInt (((crop.h : Int) : ℚ) * ((srcW : ℚ) / ((dispW : ℚ) / sf))) : Int) : ℚ)
        ≤ (srcH : ℚ) := by
      rw [Int.cast_add]
      nlinarith
    exact_mod_cast hcast

/-- C1 amended witness: a 100x100 source at scale factor 1/2 displayed as a
50x50 pixmap centered in a 300x300 label, with the selection covering the
whole displayed bitmap, maps inside the source bounds. -/
theorem crop_mapping_bounds_amended_witness :
    ((0 : ℚ) < 1/2 ∧ (1/2 : ℚ) ≤ 1 ∧ 0 < (50 : Nat)
      ∧ ((50 : Nat) : ℚ) * ((100 : Nat) : ℚ) * (1/2) ≤ ((100 : Nat) : ℚ) * ((50 : Nat) : ℚ)
      ∧ (((300 : Nat) : Int) - ((50 : Nat) : Int)).fdiv 2 ≤ (125 : Int)
      ∧ (0 : Int) ≤ 50
      ∧ (125 : Int) + 50 ≤ (((300 : Nat) : Int) - ((50 : Nat) : Int)).fdiv 2 + ((50 : Nat) : Int))
    ∧ (0 ≤ (mapDisplayRectToSource 100 (1/2) 300 300 50 50 ⟨125, 125, 50, 50⟩).x
      ∧ 0 ≤ (mapDisplayRectToSource 100 (1/2) 300 300 50 50 ⟨125, 125, 50, 50⟩).y
      ∧ 0 ≤ (mapDisplayRectToSource 100 (1/2) 300 300 50 50 ⟨125, 125, 50, 50⟩).w
      ∧ 0 ≤ (mapDisplayRectToSource 100 (1/2) 300 300 50 50 ⟨125, 125, 50, 50⟩).h
      ∧ (mapDisplayRectToSource 100 (1/2) 300 300 50 50 ⟨125, 125, 50, 50⟩).x
          + (mapDisplayRectToSource 100 (1/2) 300 300 50 50 ⟨125, 125, 50, 50⟩).w
          ≤ ((100 : Nat) : Int)
      ∧ (mapDisplayRectToSource 100 (1/2) 300 300 50 50 ⟨125, 125, 50, 50⟩).y
          + (mapDisplayRectToSource 100 (1/2) 300 300 50 50 ⟨125, 125, 50, 50⟩).h
          ≤ ((100 : Nat) : Int)) :=
  ⟨⟨by norm_num, by norm_num, by decide, by push_cast; norm_num, by decide, by decide,
      by decide⟩,
    crop_mapping_bounds_amended 100 100 (1/2) 300 300 50 50 ⟨125, 125, 50, 50⟩
      (by norm_num) (by norm_num) (by decide) (by push_cast; norm_num) (by decide) (by decide)
      (by decide) (by decide) (by decide) (by decide)⟩

/-- C3: when the rotated pixmap has positive dimensions and either
dimension scaled by the raw scale factor falls below 1 pixel, the effective
scale becomes the maximum of the two per-dimension correction factors
1/rotatedWidth and 1/rotatedHeight, both scaled dimensions then reach at
least 1 before truncation, and the target dimensions handed to the scaler
are max(1, int(rotatedWidth * effectiveScale)) by max(1, int(rotatedHeight
* effectiveScale)), each at least 1. -/
theorem display_min_dimension_correction (rotW rotH : Nat) (sf : ℚ)
    (hw : 0 < rotW) (hh : 0 < rotH)
    (htrig : (rotW : ℚ) * sf < 1 ∨ (rotH : ℚ) * sf < 1) :
    effectiveScale rotW rotH sf = max (1 / (rotW : ℚ)) (1 / (rotH : ℚ))
    ∧ 1 ≤ (rotW : ℚ) * effectiveScale rotW rotH sf
    ∧ 1 ≤ (rotH : ℚ) * effectiveScale rotW rotH sf
    ∧ (displayTargetDims rotW rotH sf).1
        = max 1 (pyInt ((rotW : ℚ) * effectiveScale rotW rotH sf))
    ∧ (displayTargetDims rotW rotH sf).2
        = max 1 (pyInt ((rotH : ℚ) * effectiveScale rotW rotH sf))
    ∧ 1 ≤ (displayTargetDims rotW rotH sf).1
    ∧ 1 ≤ (displayTargetDims rotW rotH sf).2 := by
  have hwQ : (0 : ℚ) < (rotW : ℚ) := by exact_mod_cast hw
  have hhQ : (0 : ℚ) < (rotH : ℚ) := by exact_mod_cast hh
  have hes : effectiveScale rotW rotH sf = max (1 / (rotW : ℚ)) (1 / (rotH : ℚ)) := by
    by_cases c1 : (rotW : ℚ) * sf < 1
    · by_cases c2 : (rotH : ℚ) * sf < 1
      · simp only [effectiveScale, if_pos (And.intro c1 hw), if_pos (And.intro c2 hh)]
      · have hsf0 : 0 < sf := by nlinarith [not_lt.mp c2]
        have hle : 1 / (rotH : ℚ) ≤ 1 / (rotW : ℚ) := by
          have hwh : (rotW : ℚ) ≤ (rotH : ℚ) := by nlinarith [not_lt.mp c2]
          exact one_div_le_one_div_of_le hwQ hwh
        have hc2 : ¬((rotH : ℚ) * sf < 1 ∧ 0 < rotH) := fun hA => c2 hA.1
        simp only [effectiveScale, if_pos (And.intro c1 hw), if_neg hc2]
        exact (max_eq_left hle).symm
    · have c2 : (rotH : ℚ) * sf < 1 := htrig.resolve_left c1
      have hsf0 : 0 < sf := by nlinarith [not_lt.mp c1]
      have hwsf : 1 / (rotW : ℚ) ≤ sf := by
        rw [div_le_iff₀ hwQ]
        nlinarith [not_lt.mp c1]
      have hsfh : sf ≤ 1 / (rotH : ℚ) := by
        rw [le_div_iff₀ hhQ]
        nlinarith
      have hc1 : ¬((rotW : ℚ) * sf < 1 ∧ 0 < rotW) := fun hA => c1 hA.1
      simp only [effectiveScale, if_neg hc1, if_pos (And.intro c2 hh)]
      rw [max_eq_right hsfh, max_eq_right (le_trans hwsf hsfh)]
  refine ⟨hes, ?_, ?_, rfl, rfl, le_max_left 1 _, le_max_left 1 _⟩
  · rw [hes]
    calc (1 : ℚ) = (rotW : ℚ) * (1 / (rotW : ℚ)) := by field_simp
    _ ≤ (rotW : ℚ) * max (1 / (rotW : ℚ)) (1 / (rotH : ℚ)) :=
        mul_le_mul_of_nonneg_left (le_max_left _ _) (le_of_lt hwQ)
  · rw [hes]
    calc (1 : ℚ) = (rotH : ℚ) * (1 / (rotH : ℚ)) := by field_simp
    _ ≤ (rotH : ℚ) * max (1 / (rotW : ℚ)) (1 / (rotH : ℚ)) :=
        mul_le_mul_of_nonneg_left (le_max_right _ _) (le_of_lt hhQ)

/-- C3 witness: a rotated 2x3 pixmap at scale factor 1/10 (both target
dimensions below 1 pixel) gets effective scale max(1/2, 1/3) = 1/2. -/
theorem display_min_dimension_correction_witness :
    (0 < (2 : Nat) ∧ 0 < (3 : Nat)
      ∧ (((2 : Nat) : ℚ) * (1/10) < 1 ∨ ((3 : Nat) : ℚ) * (1/10) < 1))
    ∧ (effectiveScale 2 3 (1/10) = max (1 / ((2 : Nat) : ℚ)) (1 / ((3 : Nat) : ℚ))
      ∧ 1 ≤ ((2 : Nat) : ℚ) * effectiveScale 2 3 (1/10)
      ∧ 1 ≤ ((3 : Nat) : ℚ) * effectiveScale 2 3 (1/10)
      ∧ (displayTargetDims 2 3 (1/10)).1
          = max 1 (pyInt (((2 : Nat) : ℚ) * effectiveScale 2 3 (1/10)))
      ∧ (displayTargetDims 2 3 (1/10)).2
          = max 1 (pyInt (((3 : Nat) : ℚ) * effectiveScale 2 3 (1/10)))
      ∧ 1 ≤ (displayTargetDims 2 3 (1/10)).1
      ∧ 1 ≤ (displayTargetDims 2 3 (1/10)).2) :=
  ⟨⟨by decide, by decide, Or.inl (by push_cast; norm_num)⟩,
    display_min_dimension_correction 2 3 (1/10) (by decide) (by decide)
      (Or.inl (by push_cast; norm_num))⟩

/-- `update_image_display` changes only the label pixmap. -/
theorem update_image_display_fields (alg : ScaleAlg) (s : ViewerState) :
    (update_image_display alg s).pixmap = s.pixmap
    ∧ (update_image_display alg s).rotation_angle = s.rotation_angle
    ∧ (update_image_display alg s).scale_factor = s.scale_factor
    ∧ (update_image_display alg s).image_modified_by_crop = s.image_modified_by_crop
    ∧ (update_image_display alg s).image_modified_by_bg_removal
        = s.image_modified_by_bg_removal
    ∧ (update_image_display alg s).area_w = s.area_w
    ∧ (update_image_display alg s).area_h = s.area_h
    ∧ (update_image_display alg s).current_image_path = s.current_image_path := by
  unfold update_image_display
  split
  · exact ⟨rfl, rfl, rfl, rfl, rfl, rfl, rfl, rfl⟩
  · exact ⟨rfl, rfl, rfl, rfl, rfl, rfl, rfl, rfl⟩

/-- The label pixmap produced by `update_image_display` depends only on the
pixmap, the rotation angle and the scale factor. -/
theorem update_image_display_label_congr (alg : ScaleAlg) (s t : ViewerState)
    (hp : s.pixmap = t.pixmap) (ha : s.rotation_angle = t.rotation_angle)
    (hs : s.scale_factor = t.scale_factor) :
    (update_image_display alg s).label_pixmap = (update_image_display alg t).label_pixmap := by
  unfold update_image_display
  rw [hp, ha, hs]
  split
  · rfl
  · rfl

/-- `fit_to_window` changes only the scale factor and the label pixmap. -/
theorem fit_to_window_fields (alg : ScaleAlg) (s : ViewerState) :
    (fit_to_window alg s).pixmap = s.pixmap
    ∧ (fit_to_window alg s).rotation_angle = s.rotation_angle
    ∧ (fit_to_window alg s).image_modified_by_crop = s.image_modified_by_crop
    ∧ (fit_to_window alg s).image_modified_by_bg_removal = s.image_modified_by_bg_removal
    ∧ (fit_to_window alg s).current_image_path = s.current_image_path := by
  refine ⟨?_, ?_, ?_, ?_, ?_⟩ <;>
  · simp only [fit_to_window]
    split_ifs <;> simp [update_image_display_fields]

/-- C5: `fit_to_window` computes the new scale factor as
min(containerWidth / bitmapWidth, containerHeight / bitmapHeight), swapping
the bitmap's width and height first exactly when the rotation angle is an
odd multiple of 90 degrees, and leaves the scale factor unchanged when the
pixmap is null or either footprint dimension is 0; a 100x200 image rotated
90 degrees fit into a 300x300 container yields scale factor 3/2. -/
theorem fit_to_window_spec (alg : ScaleAlg) (s : ViewerState) :
    (s.pixmap.IsNullQ → fit_to_window alg s = s)
    ∧ ((s.rotation_angle = 90 ∨ s.rotation_angle = 270) →
        fitDims s = (s.pixmap.h, s.pixmap.w))
    ∧ ((s.rotation_angle = 0 ∨ s.rotation_angle = 180) →
        fitDims s = (s.pixmap.w, s.pixmap.h))
    ∧ ((fitDims s).1 = 0 ∨ (fitDims s).2 = 0 →
        (fit_to_window alg s).scale_factor = s.scale_factor)
    ∧ (¬s.pixmap.IsNullQ → ¬((fitDims s).1 = 0 ∨ (fitDims s).2 = 0) →
        (fit_to_window alg s).scale_factor
          = min ((s.area_w : ℚ) / (((fitDims s).1 : Nat) : ℚ))
              ((s.area_h : ℚ) / (((fitDims s).2 : Nat) : ℚ)))
    ∧ (fit_to_window alg fitDemoState).scale_factor = 3/2 := by
  have hmain : ∀ (t : ViewerState), ¬t.pixmap.IsNullQ →
      ¬((fitDims t).1 = 0 ∨ (fitDims t).2 = 0) →
      (fit_to_window alg t).scale_factor
        = min ((t.area_w : ℚ) / (((fitDims t).1 : Nat) : ℚ))
            ((t.area_h : ℚ) / (((fitDims t).2 : Nat) : ℚ)) := by
    intro t h1 h2
    simp only [fit_to_window, if_neg h1, if_neg h2]
    rw [(update_image_display_fields alg _).2.2.1]
  refine ⟨?_, ?_, ?_, ?_, hmain s, ?_⟩
  · intro h
    simp only [fit_to_window, if_pos h]
  · intro h
    rcases h with h | h
    · simp only [fitDims, h]
      rw [if_pos (show (90 : Int).emod 180 ≠ 0 by decide)]
    · simp only [fitDims, h]
      rw [if_pos (show (270 : Int).emod 180 ≠ 0 by decide)]
  · intro h
    rcases h with h | h
    · simp only [fitDims, h]
      rw [if_neg (show ¬(0 : Int).emod 180 ≠ 0 by decide)]
    · simp only [fitDims, h]
      rw [if_neg (show ¬(180 : Int).emod 180 ≠ 0 by decide)]
  · intro h
    by_cases h1 : s.pixmap.IsNullQ
    · simp only [fit_to_window, if_pos h1]
    · simp only [fit_to_window, if_neg h1, if_pos h]
  · have hnn : ¬fitDemoState.pixmap.IsNullQ := by decide
    have hfd : fitDims fitDemoState = (200, 100) := by decide
    have hnz : ¬((fitDims fitDemoState).1 = 0 ∨ (fitDims fitDemoState).2 = 0) := by decide
    rw [hmain fitDemoState hnn hnz, hfd]
    have ha1 : ((fitDemoState.area_w : Nat) : ℚ) = 300 := by norm_num [fitDemoState, demoState]
    have ha2 : ((fitDemoState.area_h : Nat) : ℚ) = 300 := by norm_num [fitDemoState, demoState]
    rw [ha1, ha2]
    norm_num [min_def]

/-- C5 witness: the concrete 100x200 image rotated 90 degrees in the
300x300 container uses the transposed 200x100 footprint and fits at scale
factor 3/2. -/
theorem fit_to_window_spec_witness :
    fitDims fitDemoState = (fitDemoState.pixmap.h, fitDemoState.pixmap.w)
    ∧ (fit_to_window alg0 fitDemoState).scale_factor = 3/2 :=
  ⟨(fit_to_window_spec alg0 fitDemoState).2.1 (Or.inl rfl),
    (fit_to_window_spec alg0 fitDemoState).2.2.2.2.2⟩

/-- C6: a successful image load resets the state to neutral: rotation angle
0, both modification flags false, and the display scale recomputed as
fit-to-window for the newly decoded pixmap (container ratio minimum over
its untransposed dimensions, since the rotation was just reset); a failed
load, from a missing file or undecodable bytes, returns failure and leaves
the whole state record exactly as it was. -/
theorem load_image_spec (alg : ScaleAlg) (fs : FileSystem) (s : ViewerState) (p : String) :
    (fs.fileExists p = false → load_image alg fs s p = (s, false))
    ∧ ((fs.decode p).IsNullQ → load_image alg fs s p = (s, false))
    ∧ (fs.fileExists p = true → ¬(fs.decode p).IsNullQ →
        (load_image alg fs s p).2 = true
        ∧ (load_image alg fs s p).1.rotation_angle = 0
        ∧ (load_image alg fs s p).1.image_modified_by_crop = false
        ∧ (load_image alg fs s p).1.image_modified_by_bg_removal = false
        ∧ (load_image alg fs s p).1.pixmap = fs.decode p
        ∧ (load_image alg fs s p).1.current_image_path = some p
        ∧ (load_image alg fs s p).1.scale_factor
            = min ((s.area_w : ℚ) / ((fs.decode p).w : ℚ))
                ((s.area_h : ℚ) / ((fs.decode p).h : ℚ))) := by
  refine ⟨?_, ?_, ?_⟩
  · intro h
    simp [load_image, h]
  · intro h
    cases hfe : fs.fileExists p with
    | false => simp [load_image, hfe]
    | true => simp [load_image, hfe, h]
  · intro he hd
    have hef : ¬(fs.fileExists p = false) := by simp [he]
    have heq : load_image alg fs s p
        = ({ fit_to_window alg (loadReset s (fs.decode p) p) with
            image_files_in_directory := (fs.listDirectory p).1
            current_image_index := (fs.listDirectory p).2 }, true) := by
      simp only [load_image, if_neg hef, if_neg hd]
    have hfd : fitDims (loadReset s (fs.decode p) p) = ((fs.decode p).w, (fs.decode p).h) := by
      simp only [fitDims, loadReset]
      rw [if_neg (show ¬(0 : Int).emod 180 ≠ 0 by decide)]
    have hnz : ¬((fitDims (loadReset s (fs.decode p) p)).1 = 0
        ∨ (fitDims (loadReset s (fs.decode p) p)).2 = 0) := by
      rw [hfd]
      intro hc
      exact hd hc
    have hnn : ¬(loadReset s (fs.decode p) p).pixmap.IsNullQ := hd
    have hfit := fit_to_window_fields alg (loadReset s (fs.decode p) p)
    rw [heq]
    refine ⟨rfl, ?_, ?_, ?_, ?_, ?_, ?_⟩
    · exact hfit.2.1
    · exact hfit.2.2.1
    · exact hfit.2.2.2.1
    · exact hfit.1
    · exact hfit.2.2.2.2
    · simp only [fit_to_window, if_neg hnn, if_neg hnz]
      rw [(update_image_display_fields alg _).2.2.1, hfd]
      rfl

/-- C6 witness: loading an existing, decodable file on the concrete state
succeeds and resets rotation, flags and fit-to-window scale. -/
theorem load_image_spec_witness :
    (demoFS.fileExists demoPath = true ∧ ¬(demoFS.decode demoPath).IsNullQ)
    ∧ ((load_image alg0 demoFS demoState demoPath).2 = true
      ∧ (load_image alg0 demoFS demoState demoPath).1.rotation_angle = 0
      ∧ (load_image alg0 demoFS demoState demoPath).1.image_modified_by_crop = false
      ∧ (load_image alg0 demoFS demoState demoPath).1.image_modified_by_bg_removal = false
      ∧ (load_image alg0 demoFS demoState demoPath).1.pixmap = demoFS.decode demoPath
      ∧ (load_image alg0 demoFS demoState demoPath).1.current_image_path = some demoPath
      ∧ (load_image alg0 demoFS demoState demoPath).1.scale_factor
          = min ((demoState.area_w : ℚ) / ((demoFS.decode demoPath).w : ℚ))
              ((demoState.area_h : ℚ) / ((demoFS.decode demoPath).h : ℚ))) :=
  ⟨⟨rfl, by decide⟩,
    (load_image_spec alg0 demoFS demoState demoPath).2.2 rfl (by decide)⟩

/-- `rotate_right` adds 90 degrees modulo 360 and touches neither the
pixmap nor the scale factor. -/
theorem rotate_right_fields (alg : ScaleAlg) (s : ViewerState) :
    (rotate_right alg s).rotation_angle = (s.rotation_angle + 90).emod 360
    ∧ (rotate_right alg s).pixmap = s.pixmap
    ∧ (rotate_right alg s).scale_factor = s.scale_factor :=
  ⟨(update_image_display_fields alg _).2.1, (update_image_display_fields alg _).1,
    (update_image_display_fields alg _).2.2.1⟩

/-- `rotate_left` subtracts 90 degrees modulo 360 and touches neither the
pixmap nor the scale factor. -/
theorem rotate_left_fields (alg : ScaleAlg) (s : ViewerState) :
    (rotate_left alg s).rotation_angle = (s.rotation_angle - 90).emod 360
    ∧ (rotate_left alg s).pixmap = s.pixmap
    ∧ (rotate_left alg s).scale_factor = s.scale_factor :=
  ⟨(update_image_display_fields alg _).2.1, (update_image_display_fields alg _).1,
    (update_image_display_fields alg _).2.2.1⟩

/-- C9: starting from rotation angle 0, four `rotate_right` (or four
`rotate_left`) operations return the rotation angle to 0; each single
rotation keeps the angle in {0, 90, 180, 270}; and for an image with even
width and height, four successive 90-degree rotations leave the base
pixmap untouched and reproduce a displayed pixmap identical to that of the
unrotated state. -/
theorem rotate_four_times_spec (alg : ScaleAlg) (s t : ViewerState)
    (h0 : s.rotation_angle = 0)
    (heven : s.pixmap.w % 2 = 0 ∧ s.pixmap.h % 2 = 0)
    (ht : t.rotation_angle = 0 ∨ t.rotation_angle = 90 ∨ t.rotation_angle = 180
      ∨ t.rotation_angle = 270) :
    (rotate_right alg (rotate_right alg (rotate_right alg (rotate_right alg s)))).rotation_angle
        = 0
    ∧ (rotate_left alg (rotate_left alg (rotate_left alg (rotate_left alg s)))).rotation_angle
        = 0
    ∧ ((rotate_right alg t).rotation_angle = 0 ∨ (rotate_right alg t).rotation_angle = 90
        ∨ (rotate_right alg t).rotation_angle = 180 ∨ (rotate_right alg t).rotation_angle = 270)
    ∧ ((rotate_left alg t).rotation_angle = 0 ∨ (rotate_left alg t).rotation_angle = 90
        ∨ (rotate_left alg t).rotation_angle = 180 ∨ (rotate_left alg t).rotation_angle = 270)
    ∧ (rotate_right alg (rotate_right alg (rotate_right alg (rotate_right alg s)))).pixmap
        = s.pixmap
    ∧ (rotate_right alg (rotate_right alg (rotate_right alg (rotate_right alg s)))).label_pixmap
        = (update_image_display alg s).label_pixmap := by
  have hrr : ∀ u : ViewerState,
      (rotate_right alg u).rotation_angle = (u.rotation_angle + 90).emod 360 :=
    fun u => (rotate_right_fields alg u).1
  have hrl : ∀ u : ViewerState,
      (rotate_left alg u).rotation_angle = (u.rotation_angle - 90).emod 360 :=
    fun u => (rotate_left_fields alg u).1
  have hrp : ∀ u : ViewerState, (rotate_right alg u).pixmap = u.pixmap :=
    fun u => (rotate_right_fields alg u).2.1
  have hrs : ∀ u : ViewerState, (rotate_right alg u).scale_factor = u.scale_factor :=
    fun u => (rotate_right_fields alg u).2.2
  have ha1 : (rotate_right alg s).rotation_angle = 90 := by
    rw [hrr, h0]
    decide
  have ha2 : (rotate_right alg (rotate_right alg s)).rotation_angle = 180 := by
    rw [hrr, ha1]
    decide
  have ha3 : (rotate_right alg (rotate_right alg (rotate_right alg s))).rotation_angle = 270 := by
    rw [hrr, ha2]
    decide
  have hb1 : (rotate_left alg s).rotation_angle = 270 := by
    rw [hrl, h0]
    decide
  have hb2 : (rotate_left alg (rotate_left alg s)).rotation_angle = 180 := by
    rw [hrl, hb1]
    decide
  have hb3 : (rotate_left alg (rotate_left alg (rotate_left alg s))).rotation_angle = 90 := by
    rw [hrl, hb2]
    decide
  refine ⟨?_, ?_, ?_, ?_, ?_, ?_⟩
  · rw [hrr, ha3]
    decide
  · rw [hrl, hb3]
    decide
  · rcases ht with h | h | h | h <;> rw [hrr, h] <;> decide
  · rcases ht with h | h | h | h <;> rw [hrl, h] <;> decide
  · rw [hrp, hrp, hrp, hrp]
  · rw [rotate_right]
    apply update_image_display_label_congr
    · show (rotate_right alg (rotate_right alg (rotate_right alg s))).pixmap = s.pixmap
      rw [hrp, hrp, hrp]
    · show ((rotate_right alg (rotate_right alg (rotate_right alg s))).rotation_angle
          + 90).emod 360 = s.rotation_angle
      rw [ha3, h0]
      decide
    · show (rotate_right alg (rotate_right alg (rotate_right alg s))).scale_factor
          = s.scale_factor
      rw [hrs, hrs, hrs]

/-- C9 witness: the concrete 2x2 state at angle 0 returns to angle 0 after
four rotations in either direction, with the displayed pixmap matching the
unrotated display. -/
theorem rotate_four_times_spec_witness :
    (rotDemoState.rotation_angle = 0
      ∧ rotDemoState.pixmap.w % 2 = 0 ∧ rotDemoState.pixmap.h % 2 = 0)
    ∧ ((rotate_right alg0 (rotate_right alg0 (rotate_right alg0
          (rotate_right alg0 rotDemoState)))).rotation_angle = 0
      ∧ (rotate_left alg0 (rotate_left alg0 (rotate_left alg0
          (rotate_left alg0 rotDemoState)))).rotation_angle = 0
      ∧ (rotate_right alg0 (rotate_right alg0 (rotate_right alg0
          (rotate_right alg0 rotDemoState)))).pixmap = rotDemoState.pixmap
      ∧ (rotate_right alg0 (rotate_right alg0 (rotate_right alg0
          (rotate_right alg0 rotDemoState)))).label_pixmap
          = (update_image_display alg0 rotDemoState).label_pixmap) := by
  have h := rotate_four_times_spec alg0 rotDemoState rotDemoState rfl ⟨rfl, rfl⟩
    (Or.inl rfl)
  exact ⟨⟨rfl, rfl, rfl⟩, h.1, h.2.1, h.2.2.2.2.1, h.2.2.2.2.2⟩

/-- C8: handling a background-removal result with bytes that do not decode
leaves every state field unchanged and reports a decode error; bytes that
do decode replace the base pixmap wholesale, set the background-removal
flag, reset the rotation angle to 0 and leave the crop flag and scale
factor as they were. -/
theorem bg_removal_result_spec (alg : ScaleAlg) (decodeData : List Nat → Bitmap)
    (s : ViewerState) (imageData : List Nat) :
    ((decodeData imageData).IsNullQ →
        handle_bg_removal_result alg decodeData s imageData = (s, false))
    ∧ (¬(decodeData imageData).IsNullQ →
        (handle_bg_removal_result alg decodeData s imageData).2 = true
        ∧ (handle_bg_removal_result alg decodeData s imageData).1.pixmap
            = decodeData imageData
        ∧ (handle_bg_removal_result alg decodeData s imageData).1.image_modified_by_bg_removal
            = true
        ∧ (handle_bg_removal_result alg decodeData s imageData).1.rotation_angle = 0
        ∧ (handle_bg_removal_result alg decodeData s imageData).1.image_modified_by_crop
            = s.image_modified_by_crop
        ∧ (handle_bg_removal_result alg decodeData s imageData).1.scale_factor
            = s.scale_factor) := by
  constructor
  · intro h
    have hnn : ¬¬(decodeData imageData).IsNullQ := fun hc => hc h
    simp only [handle_bg_removal_result, if_neg hnn]
  · intro h
    simp only [handle_bg_removal_result, if_pos h]
    have hu := update_image_display_fields alg
      { s with
        pixmap := decodeData imageData
        image_modified_by_bg_removal := true
        rotation_angle := 0 }
    exact ⟨trivial, hu.1, hu.2.2.2.2.1, hu.2.1, hu.2.2.2.1, hu.2.2.1⟩

/-- C8 witness: on the concrete state, bytes decoding to a 4x2 pixmap
replace the pixmap, set the background-removal flag and reset rotation,
while undecodable bytes (decoder returning the null pixmap) change
nothing. -/
theorem bg_removal_result_spec_witness :
    (¬((fun _ : List Nat => bmp 4 2) []).IsNullQ
      ∧ (handle_bg_removal_result alg0 (fun _ => bmp 4 2) saveDemoState []).2 = true
      ∧ (handle_bg_removal_result alg0 (fun _ => bmp 4 2) saveDemoState []).1.pixmap = bmp 4 2
      ∧ (handle_bg_removal_result alg0 (fun _ => bmp 4 2)
          saveDemoState []).1.image_modified_by_bg_removal = true
      ∧ (handle_bg_removal_result alg0 (fun _ => bmp 4 2)
          saveDemoState []).1.rotation_angle = 0)
    ∧ (((fun _ : List Nat => Bitmap.nullB) []).IsNullQ
      ∧ handle_bg_removal_result alg0 (fun _ => Bitmap.nullB) saveDemoState []
          = (saveDemoState, false)) := by
  have h1 := (bg_removal_result_spec alg0 (fun _ => bmp 4 2) saveDemoState []).2 (by decide)
  have h2 := (bg_removal_result_spec alg0 (fun _ => Bitmap.nullB) saveDemoState []).1
    (by decide)
  exact ⟨⟨by decide, h1.1, h1.2.1, h1.2.2.1, h1.2.2.2.1⟩, ⟨by decide, h2⟩⟩

/-- `load_image` keeps a zero rotation angle at zero on every branch. -/
theorem load_image_rotation_of (alg : ScaleAlg) (fs : FileSystem) (s : ViewerState)
    (p : String) (h : s.rotation_angle = 0) : (load_image alg fs s p).1.rotation_angle = 0 := by
  simp only [load_image]
  split_ifs
  · exact h
  · exact h
  · exact (fit_to_window_fields alg _).2.1

/-- `load_image` keeps a cleared crop flag cleared on every branch. -/
theorem load_image_cropflag_of (alg : ScaleAlg) (fs : FileSystem) (s : ViewerState)
    (p : String) (h : s.image_modified_by_crop = false) :
    (load_image alg fs s p).1.image_modified_by_crop = false := by
  simp only [load_image]
  split_ifs
  · exact h
  · exact h
  · exact (fit_to_window_fields alg _).2.2.1

/-- Under the angles the viewer produces, the baked pixmap of the save path
is exactly the rotation of the base pixmap. -/
theorem save_bake_eq_rotate (s : ViewerState)
    (hangle : s.rotation_angle = 0 ∨ s.rotation_angle = 90 ∨ s.rotation_angle = 180
      ∨ s.rotation_angle = 270) :
    (if s.rotation_angle ≠ 0 then rotateBitmap s.rotation_angle s.pixmap else s.pixmap)
      = rotateBitmap s.rotation_angle s.pixmap := by
  by_cases hz : s.rotation_angle = 0
  · rw [if_neg (fun hc => hc hz), hz]
    rfl
  · rw [if_pos hz]

/-- C7: saving in place writes the base pixmap with the rotation angle
baked in at full resolution and never applies the display scale factor (the
written bitmap is invariant under any change of scale factor); on a
successful write the rotation angle resets to 0 and the crop flag clears;
and a set background-removal flag forces the prompt-for-new-filename path,
writing nothing in place. -/
theorem save_image_spec (alg : ScaleAlg) (fs : FileSystem) (writeOk : Bool)
    (s : ViewerState) (q : ℚ) (p : String)
    (hangle : s.rotation_angle = 0 ∨ s.rotation_angle = 90 ∨ s.rotation_angle = 180
      ∨ s.rotation_angle = 270) :
    (¬s.pixmap.IsNullQ → s.image_modified_by_bg_removal = true →
        (save_image alg fs writeOk s).2.1 = SaveOutcome.promptSaveAs
        ∧ (save_image alg fs writeOk s).2.2 = none)
    ∧ (¬s.pixmap.IsNullQ → s.current_image_path = some p → p.isEmpty = false →
        s.image_modified_by_bg_removal = false →
        (save_image alg fs writeOk s).2.2
          = (if writeOk = true then some (rotateBitmap s.rotation_angle s.pixmap) else none)
        ∧ (save_image alg fs writeOk { s with scale_factor := q }).2.2
            = (save_image alg fs writeOk s).2.2
        ∧ (writeOk = true → (save_image alg fs writeOk s).1.rotation_angle = 0
            ∧ (save_image alg fs writeOk s).1.image_modified_by_crop = false)) := by
  constructor
  · intro hnn hbg
    have hcond : optStrTruthy s.current_image_path = false
        ∨ s.image_modified_by_bg_removal = true := Or.inr hbg
    constructor
    · simp only [save_image, if_neg hnn, if_pos hcond]
    · simp only [save_image, if_neg hnn, if_pos hcond]
  · intro hnn hpath hne hbg
    have htr : optStrTruthy s.current_image_path = true := by
      rw [hpath]
      simp [optStrTruthy, hne]
    have hcond : ¬(optStrTruthy s.current_image_path = false
        ∨ s.image_modified_by_bg_removal = true) := by
      intro hc
      rcases hc with hc | hc
      · rw [htr] at hc
        exact Bool.noConfusion hc
      · rw [hbg] at hc
        exact Bool.noConfusion hc
    have hsave := save_bake_eq_rotate s hangle
    refine ⟨?_, ?_, ?_⟩
    · cases writeOk with
      | false => simp only [save_image, if_neg hnn, if_neg hcond]
                 simp
      | true => simp only [save_image, if_neg hnn, if_neg hcond]
                simp [hsave]
    · cases writeOk with
      | false => simp only [save_image, if_neg hnn, if_neg hcond]
                 simp
      | true => simp only [save_image, if_neg hnn, if_neg hcond]
                simp
    · intro hwk
      subst hwk
      have heq : (save_image alg fs true s).1
          = (load_image alg fs
              { s with rotation_angle := 0, image_modified_by_crop := false }
              (s.current_image_path.getD noFile)).1 := by
        simp only [save_image, if_neg hnn, if_neg hcond]
        simp
      rw [heq]
      exact ⟨load_image_rotation_of alg fs _ _ rfl, load_image_cropflag_of alg fs _ _ rfl⟩

/-- C7 witness: the concrete 4x2 state with pending 90-degree rotation,
a non-empty path and no background removal writes the rotated full-size
pixmap regardless of scale factor, and resets rotation and crop flag. -/
theorem save_image_spec_witness :
    (¬saveDemoState.pixmap.IsNullQ
      ∧ saveDemoState.current_image_path = some demoPath
      ∧ demoPath.isEmpty = false
      ∧ saveDemoState.image_modified_by_bg_removal = false
      ∧ saveDemoState.rotation_angle = 90)
    ∧ ((save_image alg0 demoFS true saveDemoState).2.2
        = (if (true : Bool) = true
            then some (rotateBitmap saveDemoState.rotation_angle saveDemoState.pixmap)
            else none)
      ∧ (save_image alg0 demoFS true { saveDemoState with scale_factor := 5 }).2.2
          = (save_image alg0 demoFS true saveDemoState).2.2
      ∧ ((true : Bool) = true →
          (save_image alg0 demoFS true saveDemoState).1.rotation_angle = 0
          ∧ (save_image alg0 demoFS true saveDemoState).1.image_modified_by_crop = false)) :=
  ⟨⟨by decide, rfl, rfl, rfl, rfl⟩,
    (save_image_spec alg0 demoFS true saveDemoState 5 demoPath
        (Or.inr (Or.inl rfl))).2 (by decide) rfl rfl rfl⟩

/-- The intersection of two rectangles is the null rectangle or has
positive width and height. -/
theorem intersected_cases (r1 r2 : Rect) :
    r1.intersected r2 = ⟨0, 0, 0, 0⟩
    ∨ (0 < (r1.intersected r2).w ∧ 0 < (r1.intersected r2).h) := by
  unfold Rect.intersected
  split_ifs with h1 h2
  · exact Or.inl rfl
  · exact Or.inl rfl
  · right
    push_neg at h2
    constructor
    · show 0 < min (r1.x + r1.w - 1) (r2.x + r2.w - 1) - max r1.x r2.x + 1
      omega
    · show 0 < min (r1.y + r1.h - 1) (r2.y + r2.h - 1) - max r1.y r2.y + 1
      omega

/-- `QPixmap.copy` never returns a null pixmap from a non-null source. -/
theorem qpixmapCopy_not_null (b : Bitmap) (r : Rect) (hb : ¬b.IsNullQ) :
    ¬(qpixmapCopy b r).IsNullQ := by
  have hbw : b.w ≠ 0 := fun hc => hb (Or.inl hc)
  have hbh : b.h ≠ 0 := fun hc => hb (Or.inr hc)
  simp only [qpixmapCopy, if_neg hb]
  by_cases he : ¬r.IsEmptyQ
  · rw [if_pos he]
    rcases intersected_cases r ⟨0, 0, (b.w : Int), (b.h : Int)⟩ with hc | hc
    · rw [hc, if_pos (show (⟨0, 0, 0, 0⟩ : Rect).IsNullQ from ⟨rfl, rfl⟩)]
      exact hb
    · rw [if_neg (fun hn : (r.intersected ⟨0, 0, (b.w : Int), (b.h : Int)⟩).IsNullQ => by
        rcases hn with ⟨hw0, hh0⟩
        omega)]
      simp only [subBitmap, Bitmap.IsNullQ]
      intro hz
      rcases hz with hz | hz <;> rw [Int.toNat_eq_zero] at hz <;> omega
  · rw [if_neg he]
    have hfn : ¬(⟨0, 0, (b.w : Int), (b.h : Int)⟩ : Rect).IsNullQ := by
      intro hc
      rcases hc with ⟨hw, hh2⟩
      simp only [Rect.IsNullQ] at hw hh2
      omega
    rw [if_neg hfn]
    simp only [subBitmap, Bitmap.IsNullQ]
    intro hz
    rcases hz with hz | hz <;> rw [Int.toNat_eq_zero] at hz <;> omega

/-- C4 amended: `apply_crop_from_selection` is a silent no-op (every state
field unchanged) when the pixmap is null, when the selection rectangle is
null or has width or height below 10, or when the displayed label pixmap is
null; but a mapped source rectangle that leaves the source bounds is NOT
refused: whenever the guards pass, the crop is committed unconditionally —
the new pixmap is `QPixmap.copy` of the mapped rectangle (the intersection
with the source bounds, or the whole pixmap when the mapped rectangle is
empty or disjoint), the crop-modification flag is set, and the rotation
angle and background-removal flag are unchanged. -/
theorem apply_crop_guard_spec (alg : ScaleAlg) (s : ViewerState) :
    (s.pixmap.IsNullQ → apply_crop_from_selection alg s = s)
    ∧ (s.crop_rect.IsNullQ ∨ s.crop_rect.w < 10 ∨ s.crop_rect.h < 10 →
        apply_crop_from_selection alg s = s)
    ∧ (s.label_pixmap.IsNullQ → apply_crop_from_selection alg s = s)
    ∧ (¬s.pixmap.IsNullQ →
        ¬(s.crop_rect.IsNullQ ∨ s.crop_rect.w < 10 ∨ s.crop_rect.h < 10) →
        ¬s.label_pixmap.IsNullQ →
        (apply_crop_from_selection alg s).image_modified_by_crop = true
        ∧ (apply_crop_from_selection alg s).rotation_angle = s.rotation_angle
        ∧ (apply_crop_from_selection alg s).image_modified_by_bg_removal
            = s.image_modified_by_bg_removal
        ∧ (apply_crop_from_selection alg s).pixmap
            = qpixmapCopy s.pixmap (mapDisplayRectToSource s.pixmap.w s.scale_factor
                s.label_w s.label_h s.label_pixmap.w s.label_pixmap.h s.crop_rect)) := by
  refine ⟨?_, ?_, ?_, ?_⟩
  · intro h
    simp only [apply_crop_from_selection, if_pos h]
  · intro h
    by_cases h1 : s.pixmap.IsNullQ
    · simp only [apply_crop_from_selection, if_pos h1]
    · simp only [apply_crop_from_selection, if_neg h1, if_pos h]
  · intro h
    by_cases h1 : s.pixmap.IsNullQ
    · simp only [apply_crop_from_selection, if_pos h1]
    · by_cases h2 : s.crop_rect.IsNullQ ∨ s.crop_rect.w < 10 ∨ s.crop_rect.h < 10
      · simp only [apply_crop_from_selection, if_neg h1, if_pos h2]
      · simp only [apply_crop_from_selection, if_neg h1, if_neg h2, if_pos h]
  · intro h1 h2 h3
    have hcnn := qpixmapCopy_not_null s.pixmap
      (mapDisplayRectToSource s.pixmap.w s.scale_factor s.label_w s.label_h
        s.label_pixmap.w s.label_pixmap.h s.crop_rect) h1
    simp only [apply_crop_from_selection, if_neg h1, if_neg h2, if_neg h3, if_pos hcnn]
    have hf := fit_to_window_fields alg
      { s with
        pixmap := qpixmapCopy s.pixmap (mapDisplayRectToSource s.pixmap.w s.scale_factor
          s.label_w s.label_h s.label_pixmap.w s.label_pixmap.h s.crop_rect)
        image_modified_by_crop := true
        is_cropping := false }
    exact ⟨hf.2.2.1, hf.2.1, hf.2.2.2.1, hf.1⟩

/-- C4 amended witness: on the concrete state the guards pass and the crop
is committed with the flag set and rotation unchanged. -/
theorem apply_crop_guard_spec_witness :
    (¬demoState.pixmap.IsNullQ
      ∧ ¬(demoState.crop_rect.IsNullQ ∨ demoState.crop_rect.w < 10
          ∨ demoState.crop_rect.h < 10)
      ∧ ¬demoState.label_pixmap.IsNullQ)
    ∧ ((apply_crop_from_selection alg0 demoState).image_modified_by_crop = true
      ∧ (apply_crop_from_selection alg0 demoState).rotation_angle = demoState.rotation_angle
      ∧ (apply_crop_from_selection alg0 demoState).image_modified_by_bg_removal
          = demoState.image_modified_by_bg_removal
      ∧ (apply_crop_from_selection alg0 demoState).pixmap
          = qpixmapCopy demoState.pixmap (mapDisplayRectToSource demoState.pixmap.w
              demoState.scale_factor demoState.label_w demoState.label_h
              demoState.label_pixmap.w demoState.label_pixmap.h demoState.crop_rect)) :=
  ⟨⟨by decide, by decide, by decide⟩,
    (apply_crop_guard_spec alg0 demoState).2.2.2 (by decide) (by decide) (by decide)⟩

/-- C4 counterexample: on the concrete state (100x100 source at scale
factor 2 displayed 200x200 with selection (80,80,40,40)) the mapped source
rectangle (80,80,40,40) leaves the source bounds (80 + 40 > 100), yet the
operation is not a no-op: the crop flag flips from false to true and the
pixmap is replaced by the 20x20 clamped crop. -/
theorem apply_crop_out_of_bounds_counterexample :
    mapDisplayRectToSource demoState.pixmap.w demoState.scale_factor demoState.label_w
        demoState.label_h demoState.label_pixmap.w demoState.label_pixmap.h demoState.crop_rect
      = ⟨80, 80, 40, 40⟩
    ∧ ¬((80 : Int) + 40 ≤ (demoState.pixmap.w : Int))
    ∧ demoState.image_modified_by_crop = false
    ∧ (apply_crop_from_selection alg0 demoState).image_modified_by_crop = true
    ∧ (apply_crop_from_selection alg0 demoState).pixmap.w = 20
    ∧ (apply_crop_from_selection alg0 demoState).pixmap.h = 20 := by
  have hmap2 : mapDisplayRectToSource demoState.pixmap.w demoState.scale_factor
      demoState.label_w demoState.label_h demoState.label_pixmap.w demoState.label_pixmap.h
      demoState.crop_rect = ⟨80, 80, 40, 40⟩ := map_unit_case demoState.crop_rect
  have hnn : ¬demoState.pixmap.IsNullQ := by decide
  have hguard : ¬(demoState.crop_rect.IsNullQ ∨ demoState.crop_rect.w < 10
      ∨ demoState.crop_rect.h < 10) := by decide
  have hlnn : ¬demoState.label_pixmap.IsNullQ := by decide
  have hcnn : ¬(qpixmapCopy demoState.pixmap (⟨80, 80, 40, 40⟩ : Rect)).IsNullQ :=
    qpixmapCopy_not_null _ _ hnn
  have happ : apply_crop_from_selection alg0 demoState
      = fit_to_window alg0
          { demoState with
            pixmap := qpixmapCopy demoState.pixmap ⟨80, 80, 40, 40⟩
            image_modified_by_crop := true
            is_cropping := false } := by
    simp only [apply_crop_from_selection, if_neg hnn, if_neg hguard, if_neg hlnn, hmap2,
      if_pos hcnn]
  have hfit := fit_to_window_fields alg0
    { demoState with
      pixmap := qpixmapCopy demoState.pixmap ⟨80, 80, 40, 40⟩
      image_modified_by_crop := true
      is_cropping := false }
  refine ⟨hmap2, by decide, rfl, ?_, ?_, ?_⟩
  · rw [happ]
    exact hfit.2.2.1
  · rw [happ, hfit.1]
    decide
  · rw [happ, hfit.1]
    decide

/-- Stepping an already-reduced index and reducing again is the same as
reducing the stepped raw index. -/
theorem emod_add_left_emod (a d n : Int) : (a.emod n + d).emod n = (a + d).emod n := by
  show (a % n + d) % n = (a + d) % n
  conv_rhs => rw [Int.add_emod]
  rw [Int.add_emod (a % n) d, Int.emod_emod_of_dvd a dvd_rfl]

/-- The retry loop returns `none` when every probed file fails to load. -/
theorem navLoop_none (l : String → Bool) (fs : List String) (d : Int) :
    ∀ (k : Nat) (idx : Int),
      (∀ m : Nat, m < k →
        l (fs.getD ((idx + (m : Int) * d).emod (fs.length : Int)).toNat noFile) = false) →
      navLoop l fs d k (idx.emod (fs.length : Int)) = none := by
  intro k
  induction k with
  | zero =>
      intro idx h
      rfl
  | succ k ih =>
      intro idx h
      have h0 : l (fs.getD ((idx.emod (fs.length : Int)).toNat) noFile) = false := by
        have hh := h 0 (Nat.succ_pos k)
        simpa using hh
      rw [navLoop, h0]
      simp only [Bool.false_eq_true, if_false]
      rw [emod_add_left_emod]
      refine ih (idx + d) ?_
      intro m hm
      have hh := h (m + 1) (Nat.succ_lt_succ hm)
      rw [show idx + d + (m : Int) * d = idx + ((m : Nat) + 1 : Nat) * d by push_cast; ring]
      exact hh

/-- The retry loop returns the first probe, in the direction of travel,
whose file loads. -/
theorem navLoop_some (l : String → Bool) (fs : List String) (d : Int) :
    ∀ (k : Nat) (idx : Int) (j : Nat), j < k →
      (∀ m : Nat, m < j →
        l (fs.getD ((idx + (m : Int) * d).emod (fs.length : Int)).toNat noFile) = false) →
      l (fs.getD ((idx + (j : Int) * d).emod (fs.length : Int)).toNat noFile) = true →
      navLoop l fs d k (idx.emod (fs.length : Int))
        = some ((idx + (j : Int) * d).emod (fs.length : Int)).toNat := by
  intro k
  induction k with
  | zero =>
      intro idx j hj
      exact absurd hj (Nat.not_lt_zero j)
  | succ k ih =>
      intro idx j hj hmin hsucc
      cases j with
      | zero =>
          have h0 : l (fs.getD ((idx.emod (fs.length : Int)).toNat) noFile) = true := by
            simpa using hsucc
          rw [navLoop, h0]
          simp only [if_true]
          rw [show idx + ((0 : Nat) : Int) * d = idx by push_cast; ring]
      | succ j' =>
          have h0 : l (fs.getD ((idx.emod (fs.length : Int)).toNat) noFile) = false := by
            have hh := hmin 0 (Nat.succ_pos j')
            simpa using hh
          rw [navLoop, h0]
          simp only [Bool.false_eq_true, if_false]
          rw [emod_add_left_emod]
          have hres := ih (idx + d) j' (Nat.lt_of_succ_lt_succ hj)
            (fun m hm => by
              have hh := hmin (m + 1) (Nat.succ_lt_succ hm)
              rw [show idx + d + (m : Int) * d = idx + ((m : Nat) + 1 : Nat) * d by
                push_cast; ring]
              exact hh)
            (by
              rw [show idx + d + (j' : Int) * d = idx + ((j' : Nat) + 1 : Nat) * d by
                push_cast; ring]
              exact hsucc)
          rw [hres]
          congr 2
          push_cast
          ring

/-- `Int.emod` of a number by itself, in `emod` form. -/
theorem emod_self_eq (a : Int) : a.emod a = 0 := Int.emod_self

/-- Minus one reduces to the last index modulo a length of at least two. -/
theorem neg_one_emod (n : Int) (h : 2 ≤ n) : (-1 : Int).emod n = n - 1 := by
  have h2 : ((-1 : Int) + n * 1).emod n = (-1 : Int).emod n :=
    @Int.add_mul_emod_self_left (-1) n 1
  have h3 : ((-1 : Int) + n * 1) = n - 1 := by ring
  rw [h3] at h2
  have h4 : ((n - 1 : Int)).emod n = n - 1 := Int.emod_eq_of_lt (by omega) (by omega)
  exact h2.symm.trans h4

/-- C10: with at least two files in the listing, navigation wraps around
modulo the listing length — forward from the last index it first tries
index 0, backward from index 0 it first tries the last index (loading them
when readable); unreadable files are skipped in the direction of travel, so
the result is the k-th step exactly when the first k-1 steps fail to load
and step k loads; and when every file in the listing is unreadable the
whole listing is exhausted (length-many attempts) and navigation fails. -/
theorem navigate_image_spec (l : String → Bool) (fs : List String) (cur d : Int) (k : Nat)
    (hn : 2 ≤ fs.length) (hd : d = 1 ∨ d = -1) (hk1 : 1 ≤ k) (hkn : k ≤ fs.length) :
    (cur = (fs.length : Int) - 1 → d = 1 → l (fs.getD 0 noFile) = true →
        navigate_image l fs cur d = some 0)
    ∧ (cur = 0 → d = -1 → l (fs.getD (fs.length - 1) noFile) = true →
        navigate_image l fs cur d = some (fs.length - 1))
    ∧ (fs.all (fun f => !l f) = true → navigate_image l fs cur d = none)
    ∧ (((List.range (k - 1)).all (fun m =>
          !l (fs.getD ((cur + ((m : Int) + 1) * d).emod (fs.length : Int)).toNat noFile)))
          = true →
        l (fs.getD ((cur + (k : Int) * d).emod (fs.length : Int)).toNat noFile) = true →
        navigate_image l fs cur d
          = some ((cur + (k : Int) * d).emod (fs.length : Int)).toNat) := by
  have hnle : ¬(fs.length ≤ 1) := by omega
  have hnpos : (0 : Int) < (fs.length : Int) := by
    have h2 : (2 : Int) ≤ (fs.length : Int) := by exact_mod_cast hn
    omega
  have hnav : navigate_image l fs cur d
      = navLoop l fs d fs.length ((cur + d).emod (fs.length : Int)) := by
    simp only [navigate_image, if_neg hnle]
  refine ⟨?_, ?_, ?_, ?_⟩
  · intro hcur hdir hload
    subst hcur
    subst hdir
    have harg : (((fs.length : Int) - 1 + 1) + ((0 : Nat) : Int) * 1).emod (fs.length : Int)
        = 0 := by
      rw [show ((fs.length : Int) - 1 + 1) + ((0 : Nat) : Int) * 1 = (fs.length : Int) by
        push_cast; ring]
      exact emod_self_eq (fs.length : Int)
    have hres := navLoop_some l fs 1 fs.length ((fs.length : Int) - 1 + 1) 0 (by omega)
      (fun m hm => absurd hm (Nat.not_lt_zero m))
      (by
        rw [harg]
        exact hload)
    rw [hnav, hres, harg]
    rfl
  · intro hcur hdir hload
    subst hcur
    subst hdir
    have hn2 : (2 : Int) ≤ (fs.length : Int) := by exact_mod_cast hn
    have harg : (((0 : Int) + -1) + ((0 : Nat) : Int) * (-1)).emod (fs.length : Int)
        = (fs.length : Int) - 1 := by
      rw [show ((0 : Int) + -1) + ((0 : Nat) : Int) * (-1) = (-1 : Int) by norm_num]
      exact neg_one_emod (fs.length : Int) hn2
    have htn : ((fs.length : Int) - 1).toNat = fs.length - 1 := by omega
    have hres := navLoop_some l fs (-1) fs.length ((0 : Int) + -1) 0 (by omega)
      (fun m hm => absurd hm (Nat.not_lt_zero m))
      (by
        rw [harg, htn]
        exact hload)
    rw [hnav, hres, harg]
    exact congrArg some htn
  · intro hall
    rw [hnav]
    refine navLoop_none l fs d fs.length (cur + d) ?_
    intro m hm
    have hb1 : 0 ≤ (cur + d + (m : Int) * d).emod (fs.length : Int) :=
      Int.emod_nonneg _ (by omega)
    have hb2 : (cur + d + (m : Int) * d).emod (fs.length : Int) < (fs.length : Int) :=
      Int.emod_lt_of_pos _ hnpos
    have hlt : ((cur + d + (m : Int) * d).emod (fs.length : Int)).toNat < fs.length := by
      omega
    have hmem : fs.getD ((cur + d + (m : Int) * d).emod (fs.length : Int)).toNat noFile
        ∈ fs := by
      rw [List.getD_eq_getElem fs noFile hlt]
      exact List.getElem_mem hlt
    have hval := List.all_eq_true.mp hall _ hmem
    simpa using hval
  · intro hmin hload
    have hstep : ∀ mm : Nat, cur + d + (mm : Int) * d = cur + ((mm : Int) + 1) * d := by
      intro mm
      ring
    have hlast : cur + d + ((k - 1 : Nat) : Int) * d = cur + (k : Int) * d := by
      rw [Nat.cast_sub hk1]
      push_cast
      ring
    have hres := navLoop_some l fs d fs.length (cur + d) (k - 1) (by omega)
      (fun m hm => by
        have hmem : m ∈ List.range (k - 1) := List.mem_range.mpr hm
        have hh := List.all_eq_true.mp hmin _ hmem
        rw [hstep m]
        simpa using hh)
      (by
        rw [hlast]
        exact hload)
    rw [hnav, hres, hlast]

/-- C10 witness: in a three-file listing where every file loads, navigating
forward from the last index 2 wraps to index 0. -/
theorem navigate_image_spec_witness :
    (2 ≤ demoFiles.length ∧ ((1 : Int) = 1 ∨ (1 : Int) = -1)
      ∧ (2 : Int) = (demoFiles.length : Int) - 1
      ∧ (fun _ : String => true) (demoFiles.getD 0 noFile) = true)
    ∧ navigate_image (fun _ => true) demoFiles 2 1 = some 0 :=
  ⟨⟨by decide, Or.inl rfl, by decide, rfl⟩,
    (navigate_image_spec (fun _ => true) demoFiles 2 1 1 (by decide) (Or.inl rfl)
        (by decide) (by decide)).1 (by decide) rfl rfl⟩
